import Mathlib

/-
Verification of the order-processing exercise (`p3.py`): CSV parsing,
inventory, coupon/tax pricing, bank account and order processor.

Modelling conventions:
- Python `float` values are modelled as exact rationals (`ℚ`).
- Python `dict` is modelled as an association list with first-match lookup
  and first-match overwrite.
- A Python function that can raise is modelled in `Except PyErr`; the error
  carries the exception class (`ValueError`, `KeyError`, `TypeError`).
- `process_order` mutates the inventory and the payer, so it returns the
  final state of both next to its result; when an exception escapes midway
  the returned state is the state at the raise point, as in Python.
- Strings are handled through their character lists; `str.strip`,
  `str.upper`, `str.lower` and `str.split` are modelled on ASCII text.
-/

namespace P3

/-- ASCII whitespace, as stripped by Python `str.strip()`. -/
def is_space_py (c : Char) : Bool :=
  c.toNat = 32 || c.toNat = 9 || c.toNat = 10 || c.toNat = 11 ||
    c.toNat = 12 || c.toNat = 13

/-- One character of Python `str.upper()` (ASCII letters). -/
def upper_char (c : Char) : Char :=
  if 97 ≤ c.toNat ∧ c.toNat ≤ 122 then Char.ofNat (c.toNat - 32) else c

/-- One character of Python `str.lower()` (ASCII letters). -/
def lower_char (c : Char) : Char :=
  if 65 ≤ c.toNat ∧ c.toNat ≤ 90 then Char.ofNat (c.toNat + 32) else c

/-- Remove leading and trailing whitespace from a character list. -/
def strip_chars (l : List Char) : List Char :=
  ((l.dropWhile is_space_py).reverse.dropWhile is_space_py).reverse

/-- Python `str.strip()`. -/
def py_strip (s : String) : String := String.mk (strip_chars s.data)

/-- Python `str.upper()` (ASCII). -/
def py_upper (s : String) : String := String.mk (s.data.map upper_char)

/-- Python `str.lower()` (ASCII). -/
def py_lower (s : String) : String := String.mk (s.data.map lower_char)

/-- Split a character list at every occurrence of `sep`, keeping empty
pieces, as Python `str.split(sep)` does for a one-character separator. -/
def split_char (sep : Char) : List Char → List (List Char)
  | [] => [[]]
  | c :: rest =>
    if c = sep then [] :: split_char sep rest
    else
      match split_char sep rest with
      | [] => [[c]]
      | h :: t => (c :: h) :: t

/-- Python `s.split(sep)` for a one-character separator. -/
def py_split (s : String) (sep : Char) : List String :=
  (split_char sep s.data).map String.mk

/-- Association-list lookup, modelling `d.get(k)` / `d[k]` on a Python
dict with string keys. -/
def getKV {α : Type} : List (String × α) → String → Option α
  | [], _ => none
  | (k, v) :: rest, k2 => if k = k2 then some v else getKV rest k2

/-- Association-list overwrite, modelling `d[k] = v` on a Python dict. -/
def setKV {α : Type} : List (String × α) → String → α → List (String × α)
  | [], k2, v2 => [(k2, v2)]
  | (k, v) :: rest, k2, v2 =>
    if k = k2 then (k2, v2) :: rest else (k, v) :: setKV rest k2 v2

/-- The class of the Python exception a call raises. -/
inductive PyErr
  | valueError
  | keyError
  | typeError
deriving DecidableEq

/-- `Product` dataclass of `p3.py`. -/
structure Product where
  sku : String
  name : String
  price : ℚ
  category : String
deriving DecidableEq

/-- `OrderItem` dataclass of `p3.py`. -/
structure OrderItem where
  sku : String
  qty : ℤ
deriving DecidableEq

/-- `Order` dataclass of `p3.py`. -/
structure Order where
  order_id : String
  items : List OrderItem
  coupon_code : Option String
deriving DecidableEq

/-- The two dicts held by the `Inventory` class: stock count per sku and
the product catalog. -/
structure Inventory where
  stock : List (String × ℤ)
  catalog : List (String × Product)
deriving DecidableEq

/-- A freshly constructed `Inventory()`. -/
def empty_inventory : Inventory := { stock := [], catalog := [] }

/-- `Inventory.get_stock`: stock count, defaulting to 0. -/
def get_stock (inv : Inventory) (sku : String) : ℤ :=
  (getKV inv.stock sku).getD 0

/-- `Inventory.has_sku`: catalog membership. -/
def has_sku (inv : Inventory) (sku : String) : Bool :=
  (getKV inv.catalog sku).isSome

/-- `Inventory.add_product`: store the product under its sku and give it
zero stock when it has none yet. -/
def add_product (inv : Inventory) (p : Product) : Inventory :=
  { catalog := setKV inv.catalog p.sku p,
    stock :=
      match getKV inv.stock p.sku with
      | some _ => inv.stock
      | none => setKV inv.stock p.sku 0 }

/-- `Inventory.add_stock`: requires a positive quantity and a known sku. -/
def add_stock (inv : Inventory) (sku : String) (qty : ℤ) :
    Except PyErr Inventory :=
  if qty ≤ 0 then .error .valueError
  else if has_sku inv sku = false then .error .keyError
  else .ok { inv with stock := setKV inv.stock sku (get_stock inv sku + qty) }

/-- `Inventory.remove_stock`: requires a positive quantity not exceeding
the current stock. -/
def remove_stock (inv : Inventory) (sku : String) (qty : ℤ) :
    Except PyErr Inventory :=
  if qty ≤ 0 then .error .valueError
  else if get_stock inv sku < qty then .error .valueError
  else .ok { inv with stock := setKV inv.stock sku (get_stock inv sku - qty) }

/-- `Inventory.get_price`: catalog lookup, `KeyError` when absent. -/
def get_price (inv : Inventory) (sku : String) : Except PyErr ℚ :=
  match getKV inv.catalog sku with
  | some p => .ok p.price
  | none => .error .keyError

/-- `apply_coupon` of `p3.py`: an empty or missing code and unknown codes
leave the subtotal unchanged; SAVE10 takes 10 percent off, FLAT50 takes a
flat 50 off above a 200 threshold; both discounts clamp at zero. -/
def apply_coupon (subtotal : ℚ) (code : Option String) : ℚ :=
  match code with
  | none => subtotal
  | some c =>
    if c = "" then subtotal
    else
      let n := py_upper (py_strip c)
      if n = "SAVE10" then max (subtotal - subtotal * (10 / 100)) 0
      else if n = "FLAT50" then
        if 200 ≤ subtotal then max (subtotal - 50) 0 else subtotal
      else subtotal

/-- Round-half-to-even on a rational, as Python `round` behaves on the
values reached in this development. -/
def round_half_even (q : ℚ) : ℤ :=
  if q - ⌊q⌋ < 1 / 2 then ⌊q⌋
  else if (1 : ℚ) / 2 < q - ⌊q⌋ then ⌊q⌋ + 1
  else if Even ⌊q⌋ then ⌊q⌋ else ⌊q⌋ + 1

/-- Python `round(q, 2)`. -/
def py_round2 (q : ℚ) : ℚ := (round_half_even (q * 100) : ℚ) / 100

/-- `compute_tax` of `p3.py`; the Python default for `rate` is 0.18 and the
order processor always calls it with that default. -/
def compute_tax (amount : ℚ) (rate : ℚ) : ℚ := py_round2 (amount * rate)

/-- `BankAccount` of `p3.py`. -/
structure BankAccount where
  owner : String
  balance : ℚ
deriving DecidableEq

/-- A Python value passed to `BankAccount.deposit`: numeric or not. -/
inductive PyVal
  | num (q : ℚ)
  | str (s : String)
deriving DecidableEq

/-- `BankAccount.deposit`: `TypeError` on non-numeric input, `ValueError`
on a non-positive amount, otherwise add to the balance. -/
def deposit (acct : BankAccount) (amount : PyVal) : Except PyErr BankAccount :=
  match amount with
  | .str _ => .error .typeError
  | .num a =>
    if a ≤ 0 then .error .valueError
    else .ok { acct with balance := acct.balance + a }

/-- `BankAccount.withdraw`: `ValueError` on a non-positive amount or on an
amount exceeding the balance, otherwise subtract from the balance. -/
def withdraw (acct : BankAccount) (amount : ℚ) : Except PyErr BankAccount :=
  if amount ≤ 0 then .error .valueError
  else if acct.balance < amount then .error .valueError
  else .ok { acct with balance := acct.balance - amount }

/-- The item loop of `calculate_subtotal`: `KeyError` on an unknown sku,
else accumulate `qty * price`. -/
def subtotal_items (inv : Inventory) : List OrderItem → ℚ → Except PyErr ℚ
  | [], acc => .ok acc
  | it :: rest, acc =>
    if has_sku inv it.sku then
      match get_price inv it.sku with
      | .ok price => subtotal_items inv rest (acc + it.qty * price)
      | .error e => .error e
    else .error .keyError

/-- `calculate_subtotal` of `p3.py`. -/
def calculate_subtotal (order : Order) (inv : Inventory) : Except PyErr ℚ :=
  subtotal_items inv order.items 0

/-- The validation loop at the head of `process_order`: per item, `KeyError`
on an unknown sku, then `ValueError` when the stock is short. -/
def validate_items (items : List OrderItem) (inv : Inventory) :
    Except PyErr Unit :=
  match items with
  | [] => .ok ()
  | it :: rest =>
    if has_sku inv it.sku = false then .error .keyError
    else if get_stock inv it.sku < it.qty then .error .valueError
    else validate_items rest inv

/-- The decrement loop at the end of `process_order`. On failure the
inventory reached so far is returned next to the error, since the Python
loop has already mutated it in place. -/
def remove_all (inv : Inventory) (items : List OrderItem) :
    Except PyErr Unit × Inventory :=
  match items with
  | [] => (.ok (), inv)
  | it :: rest =>
    match remove_stock inv it.sku it.qty with
    | .ok inv2 => remove_all inv2 rest
    | .error e => (.error e, inv)

/-- The receipt dict assembled by `process_order`. Its `timestamp` field is
wall-clock output and stays outside the model. -/
structure Receipt where
  order_id : String
  items : List OrderItem
  subtotal : ℚ
  discounted : ℚ
  tax : ℚ
  grand_total : ℚ
  coupon_code : String
deriving DecidableEq

/-- `process_order` of `p3.py`: validate, price, charge, decrement,
assemble. The returned inventory and account are the objects' final states,
also when an error escapes. -/
def process_order (order : Order) (inv : Inventory) (payer : BankAccount) :
    Except PyErr Receipt × Inventory × BankAccount :=
  match validate_items order.items inv with
  | .error e => (.error e, inv, payer)
  | .ok _ =>
    match calculate_subtotal order inv with
    | .error e => (.error e, inv, payer)
    | .ok subtotal =>
      let discounted := apply_coupon subtotal order.coupon_code
      let tax := compute_tax discounted (18 / 100)
      let grand_total := discounted + tax
      match withdraw payer grand_total with
      | .error e => (.error e, inv, payer)
      | .ok payer2 =>
        match remove_all inv order.items with
        | (.error e, inv2) => (.error e, inv2, payer2)
        | (.ok _, inv2) =>
          (.ok { order_id := order.order_id, items := order.items,
                 subtotal := subtotal, discounted := discounted, tax := tax,
                 grand_total := grand_total,
                 coupon_code := order.coupon_code.getD "" }, inv2, payer2)

/-- The stages of `process_order` up to and including the withdrawal; none
of them mutates the inventory or the account before the withdrawal
succeeds. -/
def charge_attempt (order : Order) (inv : Inventory) (payer : BankAccount) :
    Except PyErr BankAccount :=
  match validate_items order.items inv with
  | .error e => .error e
  | .ok _ =>
    match calculate_subtotal order inv with
    | .error e => .error e
    | .ok subtotal =>
      let discounted := apply_coupon subtotal order.coupon_code
      withdraw payer (discounted + compute_tax discounted (18 / 100))

/-- `text.splitlines()` with each line stripped and blank lines dropped,
as in the first line of `parse_products_csv`. -/
def csv_lines (text : String) : List String :=
  ((py_split text '\n').map py_strip).filter (fun ln => ln ≠ "")

/-- Index of the first data row: 1 when the first line is the header
`sku,name,price`, else 0. -/
def csv_start (lines : List String) : Nat :=
  match lines with
  | [] => 0
  | first :: _ =>
    if ((py_split first ',').map (fun p => py_lower (py_strip p))).take 3
        = ["sku", "name", "price"] then 1 else 0

/-- The data rows `parse_products_csv` iterates over. -/
def data_rows (text : String) : List String :=
  (csv_lines text).drop (csv_start (csv_lines text))

/-- Digit-list value, little helper for `py_float`. -/
def digits_nat (cs : List Char) : ℕ :=
  cs.foldl (fun a c => a * 10 + (c.toNat - 48)) 0

/-- Python `float(s)` on plain decimal literals: optional surrounding
whitespace, optional sign, digits with an optional single point and at
least one digit somewhere; anything else is a `ValueError` (`none`).
Exponents and the special values are not reached by this code. -/
def py_float (s : String) : Option ℚ :=
  let t := strip_chars s.data
  let su : ℚ × List Char :=
    match t with
    | '+' :: rest => (1, rest)
    | '-' :: rest => (-1, rest)
    | _ => (1, t)
  let ip := su.2.takeWhile (fun c => c ≠ '.')
  match su.2.dropWhile (fun c => c ≠ '.') with
  | [] =>
    if ip ≠ [] ∧ ip.all Char.isDigit then some (su.1 * digits_nat ip)
    else none
  | _ :: fp =>
    if ip.all Char.isDigit ∧ fp.all Char.isDigit ∧
        (ip ≠ [] ∨ fp ≠ []) ∧ fp.all (fun c => c ≠ '.') then
      some (su.1 * ((digits_nat ip : ℚ) + (digits_nat fp : ℚ) / (10 : ℚ) ^ fp.length))
    else none

/-- The row loop of `parse_products_csv`: `ValueError` on a row with fewer
than three comma-separated fields or an unparsable price; the fourth field,
when present, is the category, else "general". -/
def parse_rows : List String → Except PyErr (List Product)
  | [] => .ok []
  | ln :: rest =>
    match (py_split ln ',').map py_strip with
    | sku :: nm :: price_raw :: tail =>
      match py_float price_raw with
      | none => .error .valueError
      | some price =>
        match parse_rows rest with
        | .error e => .error e
        | .ok ps => .ok (⟨sku, nm, price, tail.headD "general"⟩ :: ps)
    | _ => .error .valueError

/-- `parse_products_csv` of `p3.py`. -/
def parse_products_csv (text : String) : Except PyErr (List Product) :=
  let lines := csv_lines text
  if lines = [] then .ok []
  else parse_rows (lines.drop (csv_start lines))

/-- One call against an `Inventory` object; the read-only operations keep
the state, and a call that raises leaves the state unchanged because every
method in the class checks before it writes. -/
inductive InvOp
  | add_product (p : Product)
  | add_stock (sku : String) (qty : ℤ)
  | remove_stock (sku : String) (qty : ℤ)
  | get_stock (sku : String)
  | get_price (sku : String)
  | has_sku (sku : String)

/-- State reached after one `Inventory` call. -/
def apply_op (inv : Inventory) : InvOp → Inventory
  | .add_product p => add_product inv p
  | .add_stock sku qty =>
    match add_stock inv sku qty with
    | .ok inv2 => inv2
    | .error _ => inv
  | .remove_stock sku qty =>
    match remove_stock inv sku qty with
    | .ok inv2 => inv2
    | .error _ => inv
  | .get_stock _ => inv
  | .get_price _ => inv
  | .has_sku _ => inv

/-- The designed `Inventory` invariant: no negative stock count, and every
stocked identifier is in the catalog. -/
def inv_ok (inv : Inventory) : Prop :=
  ∀ sku v, getKV inv.stock sku = some v →
    0 ≤ v ∧ (getKV inv.catalog sku).isSome = true

instance exceptDecEq {ε α : Type} [DecidableEq ε] [DecidableEq α] :
    DecidableEq (Except ε α)
  | .error a, .error b =>
    if h : a = b then .isTrue (congrArg _ h)
    else .isFalse (fun hc => h (by injection hc))
  | .error _, .ok _ => .isFalse (fun hc => Except.noConfusion hc)
  | .ok _, .error _ => .isFalse (fun hc => Except.noConfusion hc)
  | .ok a, .ok b =>
    if h : a = b then .isTrue (congrArg _ h)
    else .isFalse (fun hc => h (by injection hc))

/-- Inventory with one product S1 priced 1 and stock 1, for the C7
counterexample, the C7 witness and the C9 witness. -/
def cx_inv : Inventory :=
  { stock := [("S1", 1)], catalog := [("S1", ⟨"S1", "Pen", 1, "general"⟩)] }

/-- An order whose first item overdraws the stock of a known product and
whose second item has an unknown identifier. -/
def cx_order : Order := ⟨"OX", [⟨"S1", 5⟩, ⟨"SKUX", 1⟩], none⟩

def cx_payer : BankAccount := ⟨"p", 0⟩

/-- Order with a single unknown identifier, for the C7 witness. -/
def w7_order : Order := ⟨"OW", [⟨"NOPE", 1⟩], none⟩

/-- Order with a single known but overdrawn item, for the C7 witness. -/
def w7b_order : Order := ⟨"OB", [⟨"S1", 5⟩], none⟩

/-- Order with one affordable item, paired below with a payer who has no
funds, for the C9 witness. -/
def w9_order : Order := ⟨"W9", [⟨"S1", 1⟩], none⟩

/-- Inventory with one product S1 priced 1 and stock 3, for the C2
partial-mutation scenario. -/
def c2_inv : Inventory :=
  { stock := [("S1", 3)], catalog := [("S1", ⟨"S1", "Widget", 1, "general"⟩)] }

/-- Order naming S1 twice, 2 each: every per-item validation passes
against the initial stock of 3, yet the decrement loop can only serve the
first item. -/
def c2_order : Order := ⟨"O2", [⟨"S1", 2⟩, ⟨"S1", 2⟩], none⟩

def c2_payer : BankAccount := ⟨"p", 100⟩

/-- The inventory at the moment the second decrement raises: the first
decrement already went through. -/
def c2_inv_mid : Inventory :=
  { stock := [("S1", 1)], catalog := c2_inv.catalog }

/-- Product SKU1 priced 10.5, as in the spec's end-to-end example. -/
def c1_pen : Product := ⟨"SKU1", "Pen", 21 / 2, "stationery"⟩

/-- Product SKU2 priced 99.0, as in the spec's end-to-end example. -/
def c1_book : Product := ⟨"SKU2", "Book", 99, "books"⟩

/-- Inventory with catalog {SKU1 at 10.5, SKU2 at 99.0} and stock
{SKU1: 10, SKU2: 5}. -/
def c1_inv : Inventory :=
  { stock := [("SKU1", 10), ("SKU2", 5)],
    catalog := [("SKU1", c1_pen), ("SKU2", c1_book)] }

/-- The order [SKU1 x2, SKU2 x1] with coupon SAVE10. -/
def c1_order : Order := ⟨"ORD-001", [⟨"SKU1", 2⟩, ⟨"SKU2", 1⟩], some "SAVE10"⟩

/-- Stock after the end-to-end order went through. -/
def c1_inv_after : Inventory :=
  { stock := [("SKU1", 8), ("SKU2", 4)], catalog := c1_inv.catalog }

lemma char_toNat_ofNat (n : ℕ) (h : n < 55296) : (Char.ofNat n).toNat = n := by
  have hv : n.isValidChar := Or.inl h
  simp only [Char.ofNat, hv, dif_pos, Char.ofNatAux, Char.toNat]
  rfl

lemma upper_char_idem (c : Char) : upper_char (upper_char c) = upper_char c := by
  by_cases h : 97 ≤ c.toNat ∧ c.toNat ≤ 122
  · have hA : (Char.ofNat (c.toNat - 32)).toNat = c.toNat - 32 :=
      char_toNat_ofNat _ (by omega)
    unfold upper_char
    rw [if_pos h]
    rw [if_neg (show ¬ (97 ≤ (Char.ofNat (c.toNat - 32)).toNat ∧
      (Char.ofNat (c.toNat - 32)).toNat ≤ 122) by rw [hA]; omega)]
  · unfold upper_char
    rw [if_neg h, if_neg h]

lemma is_space_upper_char (c : Char) :
    is_space_py (upper_char c) = is_space_py c := by
  by_cases h : 97 ≤ c.toNat ∧ c.toNat ≤ 122
  · have hA : (Char.ofNat (c.toNat - 32)).toNat = c.toNat - 32 :=
      char_toNat_ofNat _ (by omega)
    have h1 : is_space_py (upper_char c) = false := by
      simp only [upper_char, if_pos h, is_space_py, hA,
        Bool.or_eq_false_iff, decide_eq_false_iff_not]
      omega
    have h2 : is_space_py c = false := by
      simp only [is_space_py, Bool.or_eq_false_iff, decide_eq_false_iff_not]
      omega
    rw [h1, h2]
  · unfold upper_char
    rw [if_neg h]

lemma dropWhile_map_upper (l : List Char) :
    (l.map upper_char).dropWhile is_space_py =
      (l.dropWhile is_space_py).map upper_char := by
  induction l with
  | nil => rfl
  | cons a t ih =>
    simp only [List.map_cons, List.dropWhile_cons, is_space_upper_char a]
    by_cases ha : is_space_py a
    · rw [if_pos ha, if_pos ha, ih]
    · rw [if_neg ha, if_neg ha, List.map_cons]

lemma strip_chars_map_upper (l : List Char) :
    strip_chars (l.map upper_char) = (strip_chars l).map upper_char := by
  unfold strip_chars
  rw [dropWhile_map_upper, ← List.map_reverse, dropWhile_map_upper,
    ← List.map_reverse]

lemma dropWhile_head_not {α : Type} (p : α → Bool) :
    ∀ (l : List α) (a : α) (t : List α), l.dropWhile p = a :: t → p a = false := by
  intro l
  induction l with
  | nil => intro a t h; cases h
  | cons b l2 ih =>
    intro a t h
    rw [List.dropWhile_cons] at h
    by_cases hb : p b
    · rw [if_pos hb] at h
      exact ih a t h
    · rw [if_neg hb] at h
      obtain rfl : b = a := by injection h
      simpa using hb

lemma dropWhile_dropWhile {α : Type} (p : α → Bool) (l : List α) :
    (l.dropWhile p).dropWhile p = l.dropWhile p := by
  cases h : l.dropWhile p with
  | nil => rfl
  | cons a t =>
    rw [List.dropWhile_cons, if_neg (by rw [dropWhile_head_not p l a t h]; simp)]

lemma strip_chars_as_piece (l : List Char) :
    ∃ t2, strip_chars l ++ t2 = l.dropWhile is_space_py := by
  obtain ⟨pre, hpre⟩ :=
    List.dropWhile_suffix (l := (l.dropWhile is_space_py).reverse) is_space_py
  refine ⟨pre.reverse, ?_⟩
  unfold strip_chars
  calc ((l.dropWhile is_space_py).reverse.dropWhile is_space_py).reverse
        ++ pre.reverse
      = (pre ++ (l.dropWhile is_space_py).reverse.dropWhile is_space_py).reverse := by
        rw [List.reverse_append]
    _ = l.dropWhile is_space_py := by rw [hpre, List.reverse_reverse]

lemma dropWhile_strip_chars (l : List Char) :
    (strip_chars l).dropWhile is_space_py = strip_chars l := by
  cases h : strip_chars l with
  | nil => rfl
  | cons a t =>
    obtain ⟨t2, ht2⟩ := strip_chars_as_piece l
    rw [h] at ht2
    have ha : is_space_py a = false :=
      dropWhile_head_not is_space_py l a (t ++ t2) (by rw [← ht2]; rfl)
    rw [List.dropWhile_cons, if_neg (by rw [ha]; simp)]

lemma strip_chars_idem (l : List Char) :
    strip_chars (strip_chars l) = strip_chars l := by
  have hrev : (strip_chars l).reverse =
      (l.dropWhile is_space_py).reverse.dropWhile is_space_py := by
    unfold strip_chars
    rw [List.reverse_reverse]
  calc strip_chars (strip_chars l)
      = (((strip_chars l).dropWhile is_space_py).reverse.dropWhile
          is_space_py).reverse := rfl
    _ = ((strip_chars l).reverse.dropWhile is_space_py).reverse := by
        rw [dropWhile_strip_chars]
    _ = (((l.dropWhile is_space_py).reverse.dropWhile is_space_py).dropWhile
          is_space_py).reverse := by rw [hrev]
    _ = ((l.dropWhile is_space_py).reverse.dropWhile is_space_py).reverse := by
        rw [dropWhile_dropWhile]
    _ = strip_chars l := rfl

lemma map_upper_idem (l : List Char) :
    (l.map upper_char).map upper_char = l.map upper_char := by
  induction l with
  | nil => rfl
  | cons a t ih =>
    simp only [List.map_cons, upper_char_idem, ih]

lemma norm_idem (c : String) :
    py_upper (py_strip (py_upper (py_strip c))) = py_upper (py_strip c) := by
  unfold py_upper py_strip
  simp only
  rw [strip_chars_map_upper, map_upper_idem, strip_chars_idem]

lemma norm_save10 : py_upper (py_strip "SAVE10") = "SAVE10" := by decide

lemma norm_flat50 : py_upper (py_strip "FLAT50") = "FLAT50" := by decide

/-- C3: the claim quantifies over every subtotal, but on a negative
subtotal the SAVE10 branch clamps at zero instead of returning the
subtotal reduced by 10 percent: at subtotal -100 the code returns 0,
not -90. -/
theorem apply_coupon_save10_negative_cx :
    apply_coupon (-100) (some "SAVE10") = 0 ∧
    (-100 : ℚ) - (-100) * (10 / 100) = -90 ∧ (0 : ℚ) ≠ -90 := by
  refine ⟨?_, by norm_num, by norm_num⟩
  simp only [apply_coupon, norm_save10, if_true]
  exact max_eq_right (by norm_num)

/-- C3 (amended: the SAVE10 clause restricted to nonnegative subtotals,
which is where the 10-percent discount is not clamped): no code leaves the
subtotal unchanged; SAVE10 takes 10 percent off a nonnegative subtotal;
FLAT50 takes 50 off at or above the 200 threshold and is the identity
below it; a code normalizing to neither SAVE10 nor FLAT50 leaves the
subtotal unchanged. -/
theorem apply_coupon_cases (s : ℚ) :
    apply_coupon s none = s ∧
    (0 ≤ s → apply_coupon s (some "SAVE10") = s - s * (10 / 100)) ∧
    (200 ≤ s → apply_coupon s (some "FLAT50") = s - 50) ∧
    (s < 200 → apply_coupon s (some "FLAT50") = s) ∧
    (∀ c : String, py_upper (py_strip c) ≠ "SAVE10" →
      py_upper (py_strip c) ≠ "FLAT50" → apply_coupon s (some c) = s) := by
  refine ⟨rfl, ?_, ?_, ?_, ?_⟩
  · intro h
    simp only [apply_coupon, norm_save10, if_true]
    exact max_eq_left (by linarith)
  · intro h
    simp only [apply_coupon, norm_flat50, if_true]
    rw [if_neg (by decide), if_pos h]
    exact max_eq_left (by linarith)
  · intro h
    simp only [apply_coupon, norm_flat50, if_true]
    rw [if_neg (show ¬ ("FLAT50" = "SAVE10") by decide), if_neg (not_le.mpr h)]
    split <;> rfl
  · intro c h2 h3
    simp only [apply_coupon]
    split_ifs <;> simp_all

/-- Witness for C3 at the spec's own sample points. -/
theorem apply_coupon_cases_witness :
    apply_coupon 200 (some "SAVE10") = 180 ∧
    apply_coupon 250 (some "FLAT50") = 200 ∧
    apply_coupon 150 (some "FLAT50") = 150 := by
  refine ⟨?_, ?_, ?_⟩
  · rw [(apply_coupon_cases 200).2.1 (by norm_num)]; norm_num
  · rw [(apply_coupon_cases 250).2.2.1 (by norm_num)]; norm_num
  · exact (apply_coupon_cases 150).2.2.2.1 (by norm_num)

/-- C4: the claim says the result is never negative for every subtotal and
every code, but with no code a negative subtotal passes through unchanged:
at subtotal -5 with no code the result is -5 < 0. -/
theorem apply_coupon_nonneg_cx :
    apply_coupon (-5) none = -5 ∧ ¬ (0 : ℚ) ≤ -5 :=
  ⟨rfl, by norm_num⟩

/-- C4 (amended: restricted to nonnegative subtotals, which the
counterexample forces): for every nonnegative subtotal and every coupon
code, including no code and unknown codes, the result of `apply_coupon`
is nonnegative. -/
theorem apply_coupon_nonneg (s : ℚ) (c : Option String) (h : 0 ≤ s) :
    0 ≤ apply_coupon s c := by
  unfold apply_coupon
  match c with
  | none => exact h
  | some c =>
    dsimp only
    split_ifs <;> first | exact h | exact le_max_right _ _

/-- Witness for C4 at subtotal 5 with an unknown code. -/
theorem apply_coupon_nonneg_witness :
    (0 : ℚ) ≤ 5 ∧ 0 ≤ apply_coupon 5 (some "WELCOME") :=
  ⟨by norm_num, apply_coupon_nonneg 5 (some "WELCOME") (by norm_num)⟩

/-- C6: starting from a balance that is at least 0, `deposit` raises a
`TypeError` on non-numeric input and a `ValueError` on a non-positive
amount and otherwise increases the balance; `withdraw` raises a
`ValueError` on a non-positive amount or an amount exceeding the balance
and otherwise decreases the balance; every successful call leaves the
balance at least 0. -/
theorem bank_account_ops (acct : BankAccount) (h : 0 ≤ acct.balance) :
    (∀ s, deposit acct (.str s) = .error .typeError) ∧
    (∀ a : ℚ, a ≤ 0 → deposit acct (.num a) = .error .valueError) ∧
    (∀ a : ℚ, 0 < a →
      deposit acct (.num a) = .ok ⟨acct.owner, acct.balance + a⟩ ∧
      acct.balance < acct.balance + a) ∧
    (∀ a : ℚ, a ≤ 0 → withdraw acct a = .error .valueError) ∧
    (∀ a : ℚ, acct.balance < a → withdraw acct a = .error .valueError) ∧
    (∀ a : ℚ, 0 < a → a ≤ acct.balance →
      withdraw acct a = .ok ⟨acct.owner, acct.balance - a⟩ ∧
      acct.balance - a < acct.balance) ∧
    (∀ v acct2, deposit acct v = .ok acct2 → 0 ≤ acct2.balance) ∧
    (∀ a acct2, withdraw acct a = .ok acct2 → 0 ≤ acct2.balance) := by
  refine ⟨fun s => rfl, ?_, ?_, ?_, ?_, ?_, ?_, ?_⟩
  · intro a ha
    simp only [deposit, if_pos ha]
  · intro a ha
    refine ⟨?_, by linarith⟩
    simp only [deposit, if_neg (not_le.mpr ha)]
  · intro a ha
    simp only [withdraw, if_pos ha]
  · intro a ha
    by_cases h0 : a ≤ 0
    · simp only [withdraw, if_pos h0]
    · simp only [withdraw, if_neg h0, if_pos ha]
  · intro a ha hab
    refine ⟨?_, by linarith⟩
    simp only [withdraw, if_neg (not_le.mpr ha), if_neg (not_lt.mpr hab)]
  · intro v acct2 hv
    match v with
    | .str s => simp [deposit] at hv
    | .num a =>
      by_cases h0 : a ≤ 0
      · simp [deposit, if_pos h0] at hv
      · simp only [deposit, if_neg h0] at hv
        obtain rfl : { acct with balance := acct.balance + a } = acct2 :=
          by injection hv
        push_neg at h0
        simpa using by linarith
  · intro a acct2 ha
    by_cases h0 : a ≤ 0
    · simp [withdraw, if_pos h0] at ha
    · by_cases h1 : acct.balance < a
      · simp [withdraw, if_neg h0, if_pos h1] at ha
      · simp only [withdraw, if_neg h0, if_neg h1] at ha
        obtain rfl : { acct with balance := acct.balance - a } = acct2 :=
          by injection ha
        push_neg at h1
        simpa using by linarith

/-- Witness for C6: a concrete deposit and a concrete withdrawal on a
balance of 10. -/
theorem bank_account_ops_witness :
    deposit ⟨"o", 10⟩ (.num 5) = .ok ⟨"o", (10 : ℚ) + 5⟩ ∧
    withdraw ⟨"o", 10⟩ 4 = .ok ⟨"o", (10 : ℚ) - 4⟩ := by
  have h := bank_account_ops ⟨"o", 10⟩ (by norm_num)
  exact ⟨(h.2.2.1 5 (by norm_num)).1, (h.2.2.2.2.2.1 4 (by norm_num) (by norm_num)).1⟩

lemma getKV_setKV {α : Type} (d : List (String × α)) (k k2 : String) (v : α) :
    getKV (setKV d k v) k2 = if k = k2 then some v else getKV d k2 := by
  induction d with
  | nil => simp [setKV, getKV]
  | cons hd t ih =>
    obtain ⟨k1, v1⟩ := hd
    by_cases h1 : k1 = k
    · subst h1
      simp only [setKV, if_pos rfl, getKV]
      by_cases h2 : k1 = k2 <;> simp [h2]
    · simp only [setKV, if_neg h1, getKV]
      by_cases h2 : k1 = k2
      · subst h2
        have : ¬ k = k1 := fun hk => h1 hk.symm
        simp [this]
      · simp [h2, ih]

lemma get_stock_nonneg_of_ok {inv : Inventory} (h : inv_ok inv) (sku : String) :
    0 ≤ get_stock inv sku := by
  unfold get_stock
  cases hks : getKV inv.stock sku with
  | none => simp
  | some v => simpa using (h sku v hks).1

lemma inv_ok_add_product {inv : Inventory} (p : Product) (h : inv_ok inv) :
    inv_ok (add_product inv p) := by
  intro sku v hv
  simp only [add_product] at hv ⊢
  cases hs : getKV inv.stock p.sku with
  | some w =>
    simp only [hs] at hv
    refine ⟨(h sku v hv).1, ?_⟩
    rw [getKV_setKV]
    by_cases hk : p.sku = sku
    · simp [hk]
    · rw [if_neg hk]
      exact (h sku v hv).2
  | none =>
    simp only [hs, getKV_setKV] at hv
    rw [getKV_setKV]
    by_cases hk : p.sku = sku
    · rw [if_pos hk] at hv
      obtain rfl : (0 : ℤ) = v := by injection hv
      simp [hk]
    · rw [if_neg hk] at hv
      rw [if_neg hk]
      exact h sku v hv

lemma inv_ok_add_stock {inv inv2 : Inventory} {sku : String} {qty : ℤ}
    (h : inv_ok inv) (hok : add_stock inv sku qty = .ok inv2) :
    inv_ok inv2 := by
  unfold add_stock at hok
  split_ifs at hok with h1 h2
  have h2' : has_sku inv sku = true := eq_true_of_ne_false h2
  obtain rfl : ({ inv with
      stock := setKV inv.stock sku (get_stock inv sku + qty) } : Inventory)
      = inv2 := by injection hok
  intro sk v hv
  simp only [getKV_setKV] at hv
  by_cases hk : sku = sk
  · subst hk
    rw [if_pos rfl] at hv
    obtain rfl : get_stock inv sku + qty = v := by injection hv
    refine ⟨?_, ?_⟩
    · have := get_stock_nonneg_of_ok h sku
      omega
    · simpa [has_sku] using h2'
  · rw [if_neg hk] at hv
    exact h sk v hv

lemma inv_ok_remove_stock {inv inv2 : Inventory} {sku : String} {qty : ℤ}
    (h : inv_ok inv) (hok : remove_stock inv sku qty = .ok inv2) :
    inv_ok inv2 := by
  unfold remove_stock at hok
  split_ifs at hok with h1 h2
  obtain rfl : ({ inv with
      stock := setKV inv.stock sku (get_stock inv sku - qty) } : Inventory)
      = inv2 := by injection hok
  intro sk v hv
  simp only [getKV_setKV] at hv
  by_cases hk : sku = sk
  · subst hk
    rw [if_pos rfl] at hv
    obtain rfl : get_stock inv sku - qty = v := by injection hv
    have hpos : 0 < get_stock inv sku := by omega
    have hsome : ∃ w, getKV inv.stock sku = some w := by
      unfold get_stock at hpos
      cases hks : getKV inv.stock sku with
      | none => rw [hks] at hpos; simp at hpos
      | some w => exact ⟨w, rfl⟩
    obtain ⟨w, hw⟩ := hsome
    exact ⟨by omega, (h sku w hw).2⟩
  · rw [if_neg hk] at hv
    exact h sk v hv

lemma inv_ok_apply_op {inv : Inventory} (h : inv_ok inv) (op : InvOp) :
    inv_ok (apply_op inv op) := by
  cases op with
  | add_product p => exact inv_ok_add_product p h
  | add_stock sku qty =>
    simp only [apply_op]
    cases hop : add_stock inv sku qty with
    | ok inv2 => exact inv_ok_add_stock h hop
    | error e => exact h
  | remove_stock sku qty =>
    simp only [apply_op]
    cases hop : remove_stock inv sku qty with
    | ok inv2 => exact inv_ok_remove_stock h hop
    | error e => exact h
  | get_stock sku => exact h
  | get_price sku => exact h
  | has_sku sku => exact h

lemma inv_ok_foldl {inv : Inventory} (h : inv_ok inv) (ops : List InvOp) :
    inv_ok (ops.foldl apply_op inv) := by
  induction ops generalizing inv with
  | nil => exact h
  | cons op rest ih => exact ih (inv_ok_apply_op h op)

/-- C5: after any sequence of `Inventory` operations on a freshly
constructed inventory, every stored stock count is nonnegative and every
identifier with a stock entry also has a catalog entry. -/
theorem inventory_invariant (ops : List InvOp) :
    inv_ok (ops.foldl apply_op empty_inventory) :=
  inv_ok_foldl (by intro sku v hv; cases hv) ops

lemma validate_items_keyError :
    ∀ (pre : List OrderItem) (it : OrderItem) (post : List OrderItem)
      (inv : Inventory),
      (∀ j ∈ pre, has_sku inv j.sku = true ∧ j.qty ≤ get_stock inv j.sku) →
      has_sku inv it.sku = false →
      validate_items (pre ++ it :: post) inv = .error .keyError := by
  intro pre
  induction pre with
  | nil =>
    intro it post inv _ hit
    simp only [List.nil_append, validate_items]
    rw [if_pos hit]
  | cons j t ih =>
    intro it post inv hpre hit
    have hj := hpre j (by simp)
    simp only [List.cons_append, validate_items]
    rw [if_neg (by simp [hj.1]), if_neg (not_lt.mpr hj.2)]
    exact ih it post inv (fun x hx => hpre x (by simp [hx])) hit

lemma validate_items_valueError :
    ∀ (items : List OrderItem) (inv : Inventory),
      (∀ j ∈ items, has_sku inv j.sku = true) →
      (∃ j ∈ items, get_stock inv j.sku < j.qty) →
      validate_items items inv = .error .valueError := by
  intro items
  induction items with
  | nil =>
    intro inv _ hex
    simp at hex
  | cons j t ih =>
    intro inv hall hex
    simp only [validate_items]
    rw [if_neg (by simp [hall j (by simp)])]
    by_cases hs : get_stock inv j.sku < j.qty
    · rw [if_pos hs]
    · rw [if_neg hs]
      apply ih inv (fun x hx => hall x (by simp [hx]))
      obtain ⟨x, hx, hlt⟩ := hex
      rcases List.mem_cons.mp hx with rfl | hx2
      · exact absurd hlt hs
      · exact ⟨x, hx2, hlt⟩

lemma process_order_of_validate_error {order : Order} {inv : Inventory}
    {payer : BankAccount} {e : PyErr}
    (h : validate_items order.items inv = .error e) :
    process_order order inv payer = (.error e, inv, payer) := by
  unfold process_order
  rw [h]

/-- C7 (amended: the item scan stops at the first failing item, so the
lookup-error clause additionally needs every earlier item to pass both
checks; the value-error clause holds as stated): when the items split as
pre ++ it :: post with every item of pre known and in stock and it's
identifier unknown, `process_order` fails with `KeyError`; when every
identifier is known and some requested quantity exceeds its stock,
`process_order` fails with `ValueError`. -/
theorem process_order_validation_errors (order : Order) (inv : Inventory)
    (payer : BankAccount) :
    (∀ pre it post, order.items = pre ++ it :: post →
      (∀ j ∈ pre, has_sku inv j.sku = true ∧ j.qty ≤ get_stock inv j.sku) →
      has_sku inv it.sku = false →
      process_order order inv payer = (.error .keyError, inv, payer)) ∧
    ((∀ j ∈ order.items, has_sku inv j.sku = true) →
      (∃ j ∈ order.items, get_stock inv j.sku < j.qty) →
      process_order order inv payer = (.error .valueError, inv, payer)) := by
  constructor
  · intro pre it post hsplit hpre hit
    apply process_order_of_validate_error
    rw [hsplit]
    exact validate_items_keyError pre it post inv hpre hit
  · intro hall hex
    apply process_order_of_validate_error
    exact validate_items_valueError order.items inv hall hex

/-- C7: the claim says an order containing an unknown identifier fails
with a lookup error, but when an earlier item fails the stock check first
the call raises `ValueError` instead: order [S1 x5, SKUX x1] against stock
{S1: 1} has the unknown identifier SKUX yet fails with `ValueError`. -/
theorem process_order_error_kind_cx :
    cx_order.items = [⟨"S1", 5⟩, ⟨"SKUX", 1⟩] ∧
    has_sku cx_inv "SKUX" = false ∧
    (process_order cx_order cx_inv cx_payer).1 = .error .valueError ∧
    (process_order cx_order cx_inv cx_payer).1 ≠ .error .keyError := by
  have hv : validate_items cx_order.items cx_inv = .error .valueError := by
    decide
  rw [process_order_of_validate_error hv]
  refine ⟨rfl, by decide, rfl, by decide⟩

/-- Witness for C7: both clauses at concrete inputs. -/
theorem process_order_validation_errors_witness :
    process_order w7_order cx_inv cx_payer = (.error .keyError, cx_inv, cx_payer) ∧
    process_order w7b_order cx_inv cx_payer = (.error .valueError, cx_inv, cx_payer) := by
  constructor
  · exact (process_order_validation_errors w7_order cx_inv cx_payer).1
      [] ⟨"NOPE", 1⟩ [] rfl (by simp) (by decide)
  · exact (process_order_validation_errors w7b_order cx_inv cx_payer).2
      (by decide) ⟨⟨"S1", 5⟩, by simp [w7b_order], by decide⟩

lemma parse_rows_short :
    ∀ rows : List String,
      (∃ row ∈ rows, ((py_split row ',').map py_strip).length < 3) →
      parse_rows rows = .error .valueError := by
  intro rows
  induction rows with
  | nil => intro h; simp at h
  | cons ln rest ih =>
    intro h
    simp only [parse_rows]
    split
    case h_1 sku nm praw tail heq =>
      have hrest : ∃ row ∈ rest, ((py_split row ',').map py_strip).length < 3 := by
        obtain ⟨row, hrow, hshort⟩ := h
        rcases List.mem_cons.mp hrow with rfl | h2
        · rw [heq] at hshort
          simp only [List.length_cons] at hshort
          omega
        · exact ⟨row, h2, hshort⟩
      cases hf : py_float praw with
      | none => rfl
      | some price => rw [ih hrest]
    case h_2 => rfl

/-- C8: any input text with a non-blank data row of fewer than three
comma-separated fields makes `parse_products_csv` fail with a
`ValueError`; when an earlier row fails first, that failure is a
`ValueError` as well, so the call always fails with a `ValueError`. -/
theorem parse_csv_short_row (text : String)
    (h : ∃ row ∈ data_rows text, ((py_split row ',').map py_strip).length < 3) :
    parse_products_csv text = .error .valueError := by
  simp only [parse_products_csv]
  split
  · rename_i hl
    exfalso
    unfold data_rows at h
    rw [hl] at h
    simp at h
  · exact parse_rows_short _ h

/-- Witness for C8: the two-field row "SKU1,Pen". -/
theorem parse_csv_short_row_witness :
    (∃ row ∈ data_rows "SKU1,Pen",
      ((py_split row ',').map py_strip).length < 3) ∧
    parse_products_csv "SKU1,Pen" = .error .valueError :=
  ⟨by decide, parse_csv_short_row "SKU1,Pen" (by decide)⟩

/-- C9: when any stage up to and including the withdrawal raises — sku
validation, stock validation, subtotal computation, price lookup, or the
withdrawal itself, e.g. for insufficient funds — `process_order` returns
that error with the inventory and the payer exactly as they were passed
in: nothing is mutated before the withdrawal succeeds. -/
theorem process_order_no_early_mutation (order : Order) (inv : Inventory)
    (payer : BankAccount) (e : PyErr)
    (h : charge_attempt order inv payer = .error e) :
    process_order order inv payer = (.error e, inv, payer) := by
  unfold charge_attempt at h
  unfold process_order
  revert h
  cases hv : validate_items order.items inv with
  | error e2 =>
    intro h
    obtain rfl : e2 = e := by injection h
    rfl
  | ok u =>
    cases u
    cases hs : calculate_subtotal order inv with
    | error e2 =>
      intro h
      obtain rfl : e2 = e := by injection h
      rfl
    | ok st =>
      intro h
      dsimp only at h ⊢
      rw [h]

lemma round_half_even_intCast (n : ℤ) : round_half_even (n : ℚ) = n := by
  unfold round_half_even
  rw [Int.floor_intCast]
  norm_num

lemma compute_tax_eq (a r : ℚ) (n : ℤ) (h : a * r * 100 = (n : ℚ)) :
    compute_tax a r = (n : ℚ) / 100 := by
  unfold compute_tax py_round2
  rw [h, round_half_even_intCast]

lemma withdraw_ok (acct : BankAccount) (a : ℚ) (h1 : 0 < a)
    (h2 : a ≤ acct.balance) :
    withdraw acct a = .ok ⟨acct.owner, acct.balance - a⟩ := by
  unfold withdraw
  rw [if_neg (not_le.mpr h1), if_neg (not_lt.mpr h2)]

lemma withdraw_insufficient (acct : BankAccount) (a : ℚ) (h1 : 0 < a)
    (h2 : acct.balance < a) :
    withdraw acct a = .error .valueError := by
  unfold withdraw
  rw [if_neg (not_le.mpr h1), if_pos h2]

lemma process_order_run (order : Order) (inv : Inventory)
    (payer payer2 : BankAccount) (st : ℚ) (inv2 : Inventory)
    (h1 : validate_items order.items inv = .ok ())
    (h2 : calculate_subtotal order inv = .ok st)
    (h3 : withdraw payer (apply_coupon st order.coupon_code +
        compute_tax (apply_coupon st order.coupon_code) (18 / 100)) = .ok payer2)
    (h4 : remove_all inv order.items = (.ok (), inv2)) :
    process_order order inv payer =
      (.ok { order_id := order.order_id, items := order.items, subtotal := st,
             discounted := apply_coupon st order.coupon_code,
             tax := compute_tax (apply_coupon st order.coupon_code) (18 / 100),
             grand_total := apply_coupon st order.coupon_code +
               compute_tax (apply_coupon st order.coupon_code) (18 / 100),
             coupon_code := order.coupon_code.getD "" }, inv2, payer2) := by
  unfold process_order
  rw [h1, h2]
  dsimp only
  rw [h3, h4]

lemma process_order_remove_fail (order : Order) (inv : Inventory)
    (payer payer2 : BankAccount) (st : ℚ) (inv2 : Inventory) (e : PyErr)
    (h1 : validate_items order.items inv = .ok ())
    (h2 : calculate_subtotal order inv = .ok st)
    (h3 : withdraw payer (apply_coupon st order.coupon_code +
        compute_tax (apply_coupon st order.coupon_code) (18 / 100)) = .ok payer2)
    (h4 : remove_all inv order.items = (.error e, inv2)) :
    process_order order inv payer = (.error e, inv2, payer2) := by
  unfold process_order
  rw [h1, h2]
  dsimp only
  rw [h3, h4]

/-- Witness for C9: the withdrawal itself fails for insufficient funds and
the state comes back untouched. -/
theorem process_order_no_early_mutation_witness :
    charge_attempt w9_order cx_inv cx_payer = .error .valueError ∧
    process_order w9_order cx_inv cx_payer =
      (.error .valueError, cx_inv, cx_payer) := by
  have h1 : validate_items w9_order.items cx_inv = .ok () := by decide
  have h2 : calculate_subtotal w9_order cx_inv = .ok 1 := by
    simp [calculate_subtotal, subtotal_items, has_sku, get_price, getKV,
      w9_order, cx_inv]
  have htax : compute_tax 1 (18 / 100) = (18 : ℤ) / 100 :=
    compute_tax_eq 1 (18 / 100) 18 (by norm_num)
  have hch : charge_attempt w9_order cx_inv cx_payer = .error .valueError := by
    unfold charge_attempt
    rw [h1, h2]
    dsimp only
    have hac : apply_coupon 1 w9_order.coupon_code = 1 := rfl
    rw [hac, htax]
    exact withdraw_insufficient cx_payer _ (by norm_num) (by norm_num [cx_payer])
  exact ⟨hch,
    process_order_no_early_mutation w9_order cx_inv cx_payer .valueError hch⟩

/-- C2: `process_order` is not atomic; on the duplicate-item order above
it raises a `ValueError` out of the decrement loop after the payer was
already charged and part of the stock already removed, so the escaping
error leaves both the balance and a stock count mutated. -/
theorem process_order_partial_mutation :
    (process_order c2_order c2_inv c2_payer).1 = .error .valueError ∧
    get_stock (process_order c2_order c2_inv c2_payer).2.1 "S1" ≠
      get_stock c2_inv "S1" ∧
    ((process_order c2_order c2_inv c2_payer).2.2).balance ≠
      c2_payer.balance := by
  have h1 : validate_items c2_order.items c2_inv = .ok () := by decide
  have h2 : calculate_subtotal c2_order c2_inv = .ok 4 := by
    simp [calculate_subtotal, subtotal_items, has_sku, get_price, getKV,
      c2_order, c2_inv]
    norm_num
  have htax : compute_tax 4 (18 / 100) = (72 : ℤ) / 100 :=
    compute_tax_eq 4 (18 / 100) 72 (by norm_num)
  have h3 : withdraw c2_payer (apply_coupon 4 c2_order.coupon_code +
      compute_tax (apply_coupon 4 c2_order.coupon_code) (18 / 100)) =
      .ok ⟨c2_payer.owner, c2_payer.balance - (4 + (72 : ℤ) / 100)⟩ := by
    have hac : apply_coupon 4 c2_order.coupon_code = 4 := rfl
    rw [hac, htax]
    exact withdraw_ok c2_payer _ (by norm_num) (by norm_num [c2_payer])
  have h4 : remove_all c2_inv c2_order.items = (.error .valueError, c2_inv_mid) := by
    simp [c2_order, c2_inv, c2_inv_mid, remove_all, remove_stock,
      get_stock, getKV, setKV]
  rw [process_order_remove_fail c2_order c2_inv c2_payer _ 4 c2_inv_mid
    .valueError h1 h2 h3 h4]
  refine ⟨rfl, by decide, ?_⟩
  simp only [c2_payer]
  norm_num

/-- C1: on the spec's end-to-end example, with any payer whose balance is
at least the grand total 127.44, `process_order` succeeds with subtotal
120, discounted total 108, tax 19.44 and grand total 127.44, decrements
the stock and charges the payer exactly the grand total. -/
theorem process_order_end_to_end (owner : String) (b : ℚ)
    (h : 12744 / 100 ≤ b) :
    process_order c1_order c1_inv ⟨owner, b⟩ =
      (.ok { order_id := "ORD-001", items := [⟨"SKU1", 2⟩, ⟨"SKU2", 1⟩],
             subtotal := 120, discounted := 108, tax := 1944 / 100,
             grand_total := 12744 / 100, coupon_code := "SAVE10" },
       c1_inv_after, ⟨owner, b - 12744 / 100⟩) := by
  have h1 : validate_items c1_order.items c1_inv = .ok () := by decide
  have h2 : calculate_subtotal c1_order c1_inv = .ok 120 := by
    simp [calculate_subtotal, subtotal_items, has_sku, get_price, getKV,
      c1_order, c1_inv, c1_pen, c1_book]
    norm_num
  have hac : apply_coupon 120 c1_order.coupon_code = 108 := by
    show apply_coupon 120 (some "SAVE10") = 108
    unfold apply_coupon
    dsimp only
    rw [if_neg (show ¬ ("SAVE10" : String) = "" by decide), norm_save10,
      if_pos rfl, max_eq_left (by norm_num)]
    norm_num
  have htax : compute_tax 108 (18 / 100) = 1944 / 100 := by
    rw [compute_tax_eq 108 (18 / 100) 1944 (by norm_num)]
    norm_num
  have h3 : withdraw ⟨owner, b⟩ (apply_coupon 120 c1_order.coupon_code +
      compute_tax (apply_coupon 120 c1_order.coupon_code) (18 / 100)) =
      .ok ⟨owner, b - 12744 / 100⟩ := by
    rw [hac, htax, show (108 : ℚ) + 1944 / 100 = 12744 / 100 from by norm_num]
    exact withdraw_ok ⟨owner, b⟩ (12744 / 100) (by norm_num) h
  have h4 : remove_all c1_inv c1_order.items = (.ok (), c1_inv_after) := by
    simp [c1_order, c1_inv, c1_inv_after, remove_all, remove_stock,
      get_stock, getKV, setKV]
  rw [process_order_run c1_order c1_inv ⟨owner, b⟩ ⟨owner, b - 12744 / 100⟩
    120 c1_inv_after h1 h2 h3 h4, hac, htax]
  norm_num [c1_order]

/-- C10: `apply_coupon` is insensitive to coupon-code whitespace and
letter case: for every subtotal and every code string, the result equals
the result on the stripped upper-cased code, so e.g. " save10 " discounts
exactly like "SAVE10". -/
theorem apply_coupon_normalizes (s : ℚ) (c : String) :
    apply_coupon s (some c) = apply_coupon s (some (py_upper (py_strip c))) := by
  by_cases hc : c = ""
  · subst hc
    rw [show py_upper (py_strip "") = "" from by decide]
  · unfold apply_coupon
    dsimp only
    rw [if_neg hc]
    by_cases hn : py_upper (py_strip c) = ""
    · rw [if_pos hn, hn]
      rw [if_neg (show ¬ ("" : String) = "SAVE10" by decide),
        if_neg (show ¬ ("" : String) = "FLAT50" by decide)]
    · rw [if_neg hn, norm_idem c]

/-- Witness for C1 at the demo's balance of 500. -/
theorem process_order_end_to_end_witness :
    (12744 / 100 : ℚ) ≤ 500 ∧
    process_order c1_order c1_inv ⟨"Shaik", 500⟩ =
      (.ok { order_id := "ORD-001", items := [⟨"SKU1", 2⟩, ⟨"SKU2", 1⟩],
             subtotal := 120, discounted := 108, tax := 1944 / 100,
             grand_total := 12744 / 100, coupon_code := "SAVE10" },
       c1_inv_after, ⟨"Shaik", 500 - 12744 / 100⟩) :=
  ⟨by norm_num, process_order_end_to_end "Shaik" 500 (by norm_num)⟩

end P3
